import Mathlib

/-!
Verification of the `FalseNewsChecker` misinformation scorer of the Vera
repository, as duplicated in `src/app.py` and `src/falseNewsChecker.py`.

Shallow embedding conventions:
* Python `float` arithmetic is modelled by exact rational arithmetic (`ℚ`);
  the numeric literals of the source (0.25, 0.6, 2.5, ...) are taken at their
  decimal value.
* Python strings are Lean `String`s; the scanning primitives `str.count`
  (non-overlapping, left-to-right), substring membership (`in`) and
  `str.endswith` are embedded below on `List Char` exactly following their
  Python semantics, and `str.lower` is `Char.toLower` mapped over the
  characters (all inputs of interest are ASCII).
* The single call to `random.random()` in `_analyze_image_for_manipulation`
  is modelled by an explicit extra argument `r` (the drawn value, in [0,1)).
* `f"{x:.2f}"` is modelled by `formatTwoDec`: round to two decimals
  (ties to even) and render with exactly two digits after the point.
-/

namespace Vera

/-- Does `pat` occur at the very start of `s`?  (Helper for the Python string
scanning primitives.) -/
def startsWith : List Char → List Char → Bool
  | [], _ => true
  | _ :: _, [] => false
  | p :: ps, c :: cs => p = c && startsWith ps cs

/-- Python `s.endswith(pat)`. -/
def endsWith (pat s : List Char) : Bool :=
  startsWith pat.reverse s.reverse

/-- Python `pat in s` (substring containment). -/
def containsSub (pat : List Char) : List Char → Bool
  | [] => startsWith pat []
  | c :: rest => startsWith pat (c :: rest) || containsSub pat rest

/-- Fueled scanner for Python `s.count(pat)`: scan left to right, and after a
match continue after the matched block (non-overlapping occurrences).  The
fuel is an upper bound on the number of scanning steps; `countOcc` passes
`s.length`, which suffices because every step consumes at least one
character. -/
def countOccAux (pat : List Char) : Nat → List Char → Nat
  | _, [] => 0
  | 0, _ => 0
  | fuel + 1, c :: rest =>
    if startsWith pat (c :: rest) then 1 + countOccAux pat fuel ((c :: rest).drop pat.length)
    else countOccAux pat fuel rest

/-- Python `s.count(pat)`: number of non-overlapping occurrences of `pat` in
`s` (for the empty pattern Python returns `len(s) + 1`). -/
def countOcc (pat s : List Char) : Nat :=
  if pat.isEmpty then s.length + 1 else countOccAux pat s.length s

/-- The keyword weight table `self.sensational_keywords`, identical in
`src/app.py` and `src/falseNewsChecker.py` (insertion order preserved). -/
def sensationalKeywords : List (List Char × ℚ) :=
  [("shocking".data, 25/100), ("exclusive".data, 15/100), ("must see".data, 20/100),
   ("disaster".data, 10/100), ("scam".data, 30/100), ("fake news".data, -(50/100)),
   ("truth".data, 5/100), ("exposed".data, 22/100), ("viral".data, 18/100)]

/-- `self.MISINFO_THRESHOLD = 0.55`. -/
def MISINFO_THRESHOLD : ℚ := 55/100

/-- `self.MANIPULATION_THRESHOLD = 0.70`. -/
def MANIPULATION_THRESHOLD : ℚ := 70/100

/-- The keyword-frequency accumulator of `_analyze_text_for_bias`:
`text = (url + " " + content).lower()`, then
`bias_score += text.count(keyword) * weight` over the keyword table. -/
def keywordScore (url content : String) : ℚ :=
  let text := (url.data ++ ' ' :: content.data).map Char.toLower
  sensationalKeywords.foldl (fun acc kw => acc + (countOcc kw.1 text : ℚ) * kw.2) 0

/-- `FalseNewsChecker._analyze_text_for_bias(url, content)`, identical in both
source files: keyword score, plus 0.3 if the (original, un-lowercased) url
contains "blogspot" or "wordpress" or ends with ".co", plus 0.4 if it contains
"hoax", "conspiracy" or "rumor"; finally `min(bias_score / 2.5, 1.0)`. -/
def analyzeTextForBias (url content : String) : ℚ :=
  let bias1 := if containsSub "blogspot".data url.data || containsSub "wordpress".data url.data
      || endsWith ".co".data url.data then keywordScore url content + 30/100
    else keywordScore url content
  let bias2 := if containsSub "hoax".data url.data || containsSub "conspiracy".data url.data
      || containsSub "rumor".data url.data then bias1 + 40/100 else bias1
  min (bias2 / (5/2)) 1

/-- `FalseNewsChecker._analyze_image_for_manipulation(file_size_kb,
noise_factor)`, identical in both source files, with the uniform draw
`random.random()` passed explicitly as `r`:
start from `noise_factor * 0.45`; add 0.35 when `file_size_kb < 100` and
`noise_factor > 0.5`; add 0.20 when `r < noise_factor`; clamp above by 1. -/
def analyzeImageForManipulation (file_size_kb : ℤ) (noise_factor r : ℚ) : ℚ :=
  min ((noise_factor * (45/100)
      + (if file_size_kb < 100 ∧ noise_factor > 1/2 then 35/100 else 0))
      + (if r < noise_factor then 20/100 else 0)) 1

/-- The blend of `FalseNewsChecker.check` in `src/app.py` (lines 71-73):
`weight_image = 0.4 if image_features else 0.0;
final = text*0.6 + image*weight_image + text*(0.4 - weight_image)`. -/
def finalScore_app (text_score image_score : ℚ) (has_image : Bool) : ℚ :=
  let weight_image : ℚ := if has_image then 40/100 else 0
  text_score * (60/100) + image_score * weight_image + text_score * (40/100 - weight_image)

/-- The blend of `FalseNewsChecker.check` in `src/falseNewsChecker.py`
(line 102): `final = (text*0.6) + (image*0.4 if image_features else text)`. -/
def finalScore_fnc (text_score image_score : ℚ) (has_image : Bool) : ℚ :=
  text_score * (60/100) + (if has_image then image_score * (40/100) else text_score)

/-- The verdict policy shared by both `check` variants: default "VERIFIED";
override with the high-risk label when `final > MANIPULATION_THRESHOLD`, else
with the caution label when `final > MISINFO_THRESHOLD`. -/
def verdictOf (final : ℚ) : String :=
  if final > MANIPULATION_THRESHOLD then "HIGH MISINFORMATION RISK 🚨"
  else if final > MISINFO_THRESHOLD then "CAUTION ADVISED (High Bias/Uncertainty) ⚠️"
  else "VERIFIED (Low Risk)"

/-- The decimal digit character for `n % 10`. -/
def digitChar (n : Nat) : Char := Char.ofNat (48 + n % 10)

/-- Fueled most-significant-first decimal rendering of a natural number. -/
def natDigitsAux : Nat → Nat → List Char → List Char
  | 0, _, acc => acc
  | fuel + 1, n, acc =>
    if n < 10 then digitChar n :: acc
    else natDigitsAux fuel (n / 10) (digitChar n :: acc)

/-- Decimal digit characters of a natural number, most significant first. -/
def natDigits (n : Nat) : List Char := natDigitsAux (n + 1) n []

/-- Round a rational to the nearest integer, ties to even, computed purely on
the numerator and denominator (`f` is the floor, `rem` the fractional part
scaled by the denominator). -/
def roundHalfEven (q : ℚ) : ℤ :=
  let f := q.num.fdiv q.den
  let rem := q.num - f * q.den
  if 2 * rem < (q.den : ℤ) then f
  else if (q.den : ℤ) < 2 * rem then f + 1
  else if 2 ∣ f then f else f + 1

/-- Character rendering of Python `f"{x:.2f}"`: sign, integer part, point,
and exactly two decimal digits. -/
def formatTwoDecChars (q : ℚ) : List Char :=
  let c := roundHalfEven (q * 100)
  let a := c.natAbs
  (if c < 0 then ['-'] else []) ++ natDigits (a / 100) ++ ['.', digitChar (a / 10), digitChar a]

/-- Python `f"{x:.2f}"` as a Lean string. -/
def formatTwoDec (q : ℚ) : String := String.mk (formatTwoDecChars q)

/-- Observable "rendered with exactly two decimal digits": the string ends in
a point followed by exactly two digit characters. -/
def twoDecRendered (s : String) : Bool :=
  match s.data.reverse with
  | d2 :: d1 :: c :: _ => c = '.' && d1.isDigit && d2.isDigit
  | _ => false

/-- The result record returned by `FalseNewsChecker.check` in `src/app.py`
(a dict with keys verdict/score/text_score/image_score, scores formatted
`"{:.2f}"`). -/
structure CheckResult where
  verdict : String
  score : String
  text_score : String
  image_score : String
deriving DecidableEq

/-- The image subscore of both `check` variants: `image_score = 0.0`,
overwritten by `_analyze_image_for_manipulation(file_size_kb, noise_factor)`
when image features are present. -/
def imageScoreOf (image_features : Option (ℤ × ℚ)) (r : ℚ) : ℚ :=
  match image_features with
  | some (fs, nf) => analyzeImageForManipulation fs nf r
  | none => 0

/-- `FalseNewsChecker.check` of `src/app.py` (lines 62-87), with the uniform
draw consumed by the image analysis passed explicitly as `r`. -/
def check_app (url : String) (image_features : Option (ℤ × ℚ)) (content : String) (r : ℚ) :
    CheckResult :=
  let text_score := analyzeTextForBias url content
  let image_score := imageScoreOf image_features r
  let final := finalScore_app text_score image_score image_features.isSome
  { verdict := verdictOf final,
    score := formatTwoDec final,
    text_score := formatTwoDec text_score,
    image_score := formatTwoDec image_score }

/-- `FalseNewsChecker.check` of `src/falseNewsChecker.py` (lines 77-111): same
subscores and verdict policy, but the final score blends differently when
image features are absent, and the function returns a single formatted string
rather than a record. -/
def check_fnc (url : String) (image_features : Option (ℤ × ℚ)) (content : String) (r : ℚ) :
    String :=
  let text_score := analyzeTextForBias url content
  let image_score := imageScoreOf image_features r
  let final := finalScore_fnc text_score image_score image_features.isSome
  "Final Misinformation Score: " ++ formatTwoDec final ++ " | VERDICT: " ++ verdictOf final

/-- A `/check` HTTP request body (`src/app.py`, `run_false_news_check`,
lines 204-230).  `url`/`content` are `none` when the JSON field is missing
(Python then takes the `data.get` default).  For the two numeric fields the
outer `Option` is presence of the field and the inner `Option` is the result
of the Python coercion (`int(...)` resp. `float(...)`), `none` meaning the
coercion raises `ValueError`/`TypeError`. -/
structure CheckRequest where
  url : Option String
  content : Option String
  file_size_kb : Option (Option ℤ)
  noise_factor : Option (Option ℚ)

/-- The image-feature extraction of `run_false_news_check`: start from
`image_features = None`; only when both fields are present and both coercions
succeed does `image_features` become the coerced pair (an exception from
either coercion is swallowed by the bare `except`). -/
def coerceImageFeatures : Option (Option ℤ) → Option (Option ℚ) → Option (ℤ × ℚ)
  | some (some fs), some (some nf) => some (fs, nf)
  | _, _ => none

/-- The `/check` endpoint `run_false_news_check` of `src/app.py`: read the
fields with their defaults, coerce the image features, and run
`checker.check`. -/
def run_false_news_check (req : CheckRequest) (r : ℚ) : CheckResult :=
  check_app (req.url.getD "URL Not Provided")
    (coerceImageFeatures req.file_size_kb req.noise_factor)
    (req.content.getD "") r

/-! ## Helper lemmas -/

/-- Evaluation scheme for `keywordScore` on concrete inputs: once the
lowercased text and the nine occurrence counts are supplied, the score is the
corresponding weighted sum. -/
theorem keywordScore_eval (url content : String) (text : List Char)
    (n1 n2 n3 n4 n5 n6 n7 n8 n9 : Nat)
    (ht : (url.data ++ ' ' :: content.data).map Char.toLower = text)
    (h1 : countOcc "shocking".data text = n1)
    (h2 : countOcc "exclusive".data text = n2)
    (h3 : countOcc "must see".data text = n3)
    (h4 : countOcc "disaster".data text = n4)
    (h5 : countOcc "scam".data text = n5)
    (h6 : countOcc "fake news".data text = n6)
    (h7 : countOcc "truth".data text = n7)
    (h8 : countOcc "exposed".data text = n8)
    (h9 : countOcc "viral".data text = n9) :
    keywordScore url content =
      (n1 : ℚ) * (25/100) + n2 * (15/100) + n3 * (20/100) + n4 * (10/100) + n5 * (30/100)
        + n6 * (-(50/100)) + n7 * (5/100) + n8 * (22/100) + n9 * (18/100) := by
  simp only [keywordScore, ht, sensationalKeywords, List.foldl, h1, h2, h3, h4, h5, h6, h7, h8, h9]
  ring

/-- Evaluation scheme for `analyzeTextForBias` once the two domain-heuristic
conditions have been decided. -/
theorem analyzeTextForBias_eval (url content : String) (b1 b2 : Bool)
    (hb1 : (containsSub "blogspot".data url.data || containsSub "wordpress".data url.data
      || endsWith ".co".data url.data) = b1)
    (hb2 : (containsSub "hoax".data url.data || containsSub "conspiracy".data url.data
      || containsSub "rumor".data url.data) = b2) :
    analyzeTextForBias url content =
      min ((if b2 then (if b1 then keywordScore url content + 30/100
          else keywordScore url content) + 40/100
        else if b1 then keywordScore url content + 30/100
          else keywordScore url content) / (5/2)) 1 := by
  simp only [analyzeTextForBias, hb1, hb2]

/-- The verdict policy only ever produces one of the three labels. -/
theorem verdictOf_cases (f : ℚ) :
    verdictOf f = "VERIFIED (Low Risk)" ∨
    verdictOf f = "CAUTION ADVISED (High Bias/Uncertainty) ⚠️" ∨
    verdictOf f = "HIGH MISINFORMATION RISK 🚨" := by
  unfold verdictOf
  split_ifs <;> simp

/-- The character produced by `digitChar` is always a decimal digit. -/
theorem digitChar_isDigit (n : Nat) : (digitChar n).isDigit = true := by
  unfold digitChar
  have h : n % 10 < 10 := Nat.mod_lt _ (by norm_num)
  have key : ∀ m ∈ Finset.range 10, (Char.ofNat (48 + m)).isDigit = true := by decide
  exact key _ (Finset.mem_range.mpr h)

/-- Every string produced by `formatTwoDec` ends in a point followed by
exactly two decimal digits. -/
theorem twoDecRendered_format (q : ℚ) : twoDecRendered (formatTwoDec q) = true := by
  simp only [twoDecRendered, formatTwoDec, formatTwoDecChars]
  simp [List.reverse_append, digitChar_isDigit]

/-! ## Claims -/

/-- Claim C8: for the url "scamscamscam" with empty content, `score_text`
returns exactly `min(3*0.30/2.5, 1.0) = 0.36`: three non-overlapping "scam"
occurrences at weight 0.30, no domain penalty, normalization by 2.5. -/
theorem claim_C8_scam_three : analyzeTextForBias "scamscamscam" "" = 36/100 := by
  rw [analyzeTextForBias_eval "scamscamscam" "" false false (by decide) (by decide),
    keywordScore_eval "scamscamscam" "" "scamscamscam ".data 0 0 0 0 3 0 0 0 0
      (by decide) (by decide) (by decide) (by decide) (by decide) (by decide) (by decide)
      (by decide) (by decide) (by decide)]
  norm_num [min_def]

/-- Claim C4: `score_text` is always at most 1 (the upper clamp), and there
is an input (content repeating the negative-weight phrase "fake news") on
which it is strictly negative, because no lower clamp is applied. -/
theorem claim_C4_text_upper_clamp :
    (∀ url content : String, analyzeTextForBias url content ≤ 1) ∧
    analyzeTextForBias "" "fake news fake news fake news" < 0 := by
  constructor
  · intro url content
    simp only [analyzeTextForBias]
    exact min_le_right _ _
  · rw [analyzeTextForBias_eval "" "fake news fake news fake news" false false
        (by decide) (by decide),
      keywordScore_eval "" "fake news fake news fake news"
        (" fake news fake news fake news".data) 0 0 0 0 0 3 0 0 0
        (by decide) (by decide) (by decide) (by decide) (by decide) (by decide) (by decide)
        (by decide) (by decide) (by decide)]
    norm_num [min_def]

/-- Claim C3: the verdict policy of `check` (shared by both variants) uses
strict comparisons against the thresholds 0.70 and 0.55: above 0.70 the
high-risk label, in (0.55, 0.70] the caution label, at or below 0.55 the
verified label; in particular at exactly 0.55 the verdict is verified and at
exactly 0.70 it is caution. -/
theorem claim_C3_verdict_thresholds (f : ℚ) :
    (f > MANIPULATION_THRESHOLD → verdictOf f = "HIGH MISINFORMATION RISK 🚨") ∧
    (f > MISINFO_THRESHOLD → f ≤ MANIPULATION_THRESHOLD →
      verdictOf f = "CAUTION ADVISED (High Bias/Uncertainty) ⚠️") ∧
    (f ≤ MISINFO_THRESHOLD → verdictOf f = "VERIFIED (Low Risk)") ∧
    verdictOf (55/100) = "VERIFIED (Low Risk)" ∧
    verdictOf (70/100) = "CAUTION ADVISED (High Bias/Uncertainty) ⚠️" := by
  refine ⟨?_, ?_, ?_, ?_, ?_⟩
  · intro h
    unfold verdictOf
    rw [if_pos h]
  · intro h1 h2
    unfold verdictOf
    rw [if_neg (not_lt.mpr h2), if_pos h1]
  · intro h
    have hm : ¬ (f > MANIPULATION_THRESHOLD) := not_lt.mpr
      (le_trans h (by norm_num [MISINFO_THRESHOLD, MANIPULATION_THRESHOLD]))
    unfold verdictOf
    rw [if_neg hm, if_neg (not_lt.mpr h)]
  · norm_num [verdictOf, MISINFO_THRESHOLD, MANIPULATION_THRESHOLD]
  · norm_num [verdictOf, MISINFO_THRESHOLD, MANIPULATION_THRESHOLD]

/-- Witness for C3: the score 0.80 lies above the 0.70 threshold and indeed
yields the high-risk verdict. -/
theorem claim_C3_witness : verdictOf (8/10) = "HIGH MISINFORMATION RISK 🚨" :=
  (claim_C3_verdict_thresholds (8/10)).1 (by norm_num [MANIPULATION_THRESHOLD])

/-- Counterexample to C1 as stated: in the `falseNewsChecker.py` variant, with
image features absent, the final score is NOT the text score.  At url "scam"
(text score 0.12) the blend `text*0.6 + text` gives 0.192 ≠ 0.12. -/
theorem claim_C1_counterexample :
    finalScore_fnc (analyzeTextForBias "scam" "") 0 false ≠ analyzeTextForBias "scam" "" := by
  rw [analyzeTextForBias_eval "scam" "" false false (by decide) (by decide),
    keywordScore_eval "scam" "" "scam ".data 0 0 0 0 1 0 0 0 0
      (by decide) (by decide) (by decide) (by decide) (by decide) (by decide) (by decide)
      (by decide) (by decide) (by decide)]
  norm_num [finalScore_fnc, min_def]

/-- Claim C1 (amended): when image features are present, both variants blend
`text*0.6 + image*0.4`.  When they are absent, the `app.py` variant returns
exactly the text score, but the `falseNewsChecker.py` variant returns
`text*0.6 + text` (= 1.6 × text score), which differs from the text score
whenever the text score is nonzero. -/
theorem claim_C1_blend (t i : ℚ) :
    finalScore_app t i true = t * (60/100) + i * (40/100) ∧
    finalScore_app t i false = t ∧
    finalScore_fnc t i true = t * (60/100) + i * (40/100) ∧
    finalScore_fnc t i false = t * (60/100) + t ∧
    (t ≠ 0 → finalScore_fnc t i false ≠ t) := by
  refine ⟨?_, ?_, ?_, ?_, ?_⟩
  · simp only [finalScore_app]
    norm_num
  · simp only [finalScore_app]
    norm_num
    ring
  · simp only [finalScore_fnc]
    norm_num
  · simp only [finalScore_fnc]
    norm_num
  · intro ht heq
    apply ht
    simp only [finalScore_fnc, if_neg Bool.false_ne_true] at heq
    linarith

/-- Witness for C1 (amended): at text score 0.12 the `falseNewsChecker.py`
no-image blend indeed differs from the text score. -/
theorem claim_C1_witness : finalScore_fnc (12/100) 0 false ≠ (12/100 : ℚ) :=
  (claim_C1_blend (12/100) 0).2.2.2.2 (by norm_num)

/-- Counterexample to C2 as stated: `score_image` is quantified over all real
noise factors, and at noise_factor = -1 (file size 200, draw 1/2) the result
is -0.45, outside [0, 1]. -/
theorem claim_C2_counterexample : analyzeImageForManipulation 200 (-1) (1/2) < 0 := by
  norm_num [analyzeImageForManipulation, min_def]

/-- Claim C2 (amended): `score_image` is always at most 1 (the upper clamp),
and it is non-negative whenever the noise factor is non-negative; for negative
noise factors the result can be negative, as the counterexample shows. -/
theorem claim_C2_image_bounds (fs : ℤ) (nf r : ℚ) :
    analyzeImageForManipulation fs nf r ≤ 1 ∧
    (0 ≤ nf → 0 ≤ analyzeImageForManipulation fs nf r) := by
  constructor
  · exact min_le_right _ _
  · intro h
    simp only [analyzeImageForManipulation]
    refine le_min ?_ (by norm_num)
    have h1 : 0 ≤ nf * (45/100) := by positivity
    split_ifs <;> linarith

/-- Witness for C2 (amended): at file size 50, noise 0.5, draw 0.25 the score
lies in [0, 1]. -/
theorem claim_C2_witness :
    0 ≤ analyzeImageForManipulation 50 (1/2) (1/4) ∧
    analyzeImageForManipulation 50 (1/2) (1/4) ≤ 1 :=
  ⟨(claim_C2_image_bounds 50 (1/2) (1/4)).2 (by norm_num),
   (claim_C2_image_bounds 50 (1/2) (1/4)).1⟩

/-- Claim C6: with the uniform draw `r ∈ [0,1)` explicit, at noise_factor 0
`score_image` never includes the 0.20 metadata term (the whole score is 0),
and at noise_factor 1 it includes it for every draw, since every `r < 1`. -/
theorem claim_C6_metadata_term (fs : ℤ) (r : ℚ) (h0 : 0 ≤ r) (h1 : r < 1) :
    analyzeImageForManipulation fs 0 r = 0 ∧
    analyzeImageForManipulation fs 1 r
      = min ((45/100 : ℚ) + (if fs < 100 then (35:ℚ)/100 else 0) + 20/100) 1 := by
  constructor
  · have hA : ¬ (fs < 100 ∧ (0:ℚ) > 1/2) := by
      rintro ⟨-, hc⟩
      norm_num at hc
    have hB : ¬ (r < (0:ℚ)) := not_lt.mpr h0
    simp only [analyzeImageForManipulation, if_neg hA, if_neg hB]
    norm_num [min_def]
  · by_cases hfs : fs < 100
    · simp only [analyzeImageForManipulation, if_pos h1,
        if_pos (show fs < 100 ∧ (1:ℚ) > 1/2 from ⟨hfs, by norm_num⟩), if_pos hfs]
      norm_num
    · simp only [analyzeImageForManipulation, if_pos h1,
        if_neg (show ¬ (fs < 100 ∧ (1:ℚ) > 1/2) from fun hc => hfs hc.1), if_neg hfs]
      norm_num

/-- Witness for C6: at file size 50 and draw 1/2 the two equations hold. -/
theorem claim_C6_witness :
    analyzeImageForManipulation 50 0 (1/2) = 0 ∧
    analyzeImageForManipulation 50 1 (1/2)
      = min ((45/100 : ℚ) + (if (50:ℤ) < 100 then (35:ℚ)/100 else 0) + 20/100) 1 :=
  claim_C6_metadata_term 50 (1/2) (by norm_num) (by norm_num)

/-- Claim C9: with the random draw made explicit, both `check` variants are
deterministic — identical url, content, image features and draw give identical
results — and when image features are absent (no draw is consumed) the result
does not depend on the draw at all. -/
theorem claim_C9_deterministic (url content : String) (img1 img2 : Option (ℤ × ℚ)) (r1 r2 : ℚ)
    (himg : img1 = img2) (hr : r1 = r2) :
    check_app url img1 content r1 = check_app url img2 content r2 ∧
    check_fnc url img1 content r1 = check_fnc url img2 content r2 ∧
    (img1 = none → ∀ s1 s2 : ℚ,
      check_app url img1 content s1 = check_app url img1 content s2 ∧
      check_fnc url img1 content s1 = check_fnc url img1 content s2) := by
  subst himg
  subst hr
  refine ⟨rfl, rfl, ?_⟩
  rintro rfl s1 s2
  exact ⟨rfl, rfl⟩

/-- Witness for C9: a concrete repeated invocation with identical inputs. -/
theorem claim_C9_witness :
    check_app "https://example.com" (some (50, 1/2)) "content" (1/3)
      = check_app "https://example.com" (some (50, 1/2)) "content" (1/3) ∧
    check_fnc "https://example.com" (some (50, 1/2)) "content" (1/3)
      = check_fnc "https://example.com" (some (50, 1/2)) "content" (1/3) ∧
    (some ((50:ℤ), (1/2:ℚ)) = none → ∀ s1 s2 : ℚ,
      check_app "https://example.com" (some (50, 1/2)) "content" s1
        = check_app "https://example.com" (some (50, 1/2)) "content" s2 ∧
      check_fnc "https://example.com" (some (50, 1/2)) "content" s1
        = check_fnc "https://example.com" (some (50, 1/2)) "content" s2) :=
  claim_C9_deterministic "https://example.com" "content" (some (50, 1/2)) (some (50, 1/2))
    (1/3) (1/3) rfl rfl

/-- Claim C7: in the `/check` endpoint, a missing numeric field or a failed
coercion does not reject the request: the image features become `None` and a
normal (text-only) result record is produced. -/
theorem claim_C7_coercion_graceful (url content : Option String)
    (fsk : Option (Option ℤ)) (nfk : Option (Option ℚ)) (r : ℚ)
    (h : fsk = none ∨ fsk = some none ∨ nfk = none ∨ nfk = some none) :
    coerceImageFeatures fsk nfk = none ∧
    run_false_news_check ⟨url, content, fsk, nfk⟩ r =
      check_app (url.getD "URL Not Provided") none (content.getD "") r := by
  have hc : coerceImageFeatures fsk nfk = none := by
    rcases h with h | h | h | h
    · subst h
      rfl
    · subst h
      rfl
    · subst h
      cases fsk with
      | none => rfl
      | some a => cases a <;> rfl
    · subst h
      cases fsk with
      | none => rfl
      | some a => cases a <;> rfl
  refine ⟨hc, ?_⟩
  simp only [run_false_news_check, hc]

/-- Witness for C7: a request whose file-size field fails coercion yields the
text-only record. -/
theorem claim_C7_witness :
    coerceImageFeatures (some none) (some (some (1/2))) = none ∧
    run_false_news_check ⟨some "scam.co", some "", some none, some (some (1/2))⟩ 0 =
      check_app ((some "scam.co").getD "URL Not Provided") none ((some "").getD "") 0 :=
  claim_C7_coercion_graceful (some "scam.co") (some "") (some none) (some (some (1/2))) 0
    (Or.inr (Or.inl rfl))

/-- Counterexample to C5 as stated: the `falseNewsChecker.py` variant does not
return a record with three scores; its `check` returns one flat string holding
only the final score and the verdict (shown here at a concrete input). -/
theorem claim_C5_counterexample :
    check_fnc "" none "" 0 =
      "Final Misinformation Score: 0.00 | VERDICT: VERIFIED (Low Risk)" := by
  have htext : analyzeTextForBias "" "" = 0 := by
    rw [analyzeTextForBias_eval "" "" false false (by decide) (by decide),
      keywordScore_eval "" "" " ".data 0 0 0 0 0 0 0 0 0
        (by decide) (by decide) (by decide) (by decide) (by decide) (by decide) (by decide)
        (by decide) (by decide) (by decide)]
    norm_num [min_def]
  have hfin : finalScore_fnc 0 0 false = 0 := by
    simp only [finalScore_fnc]
    norm_num
  have hfmt : formatTwoDec 0 = "0.00" := by
    have h : (0:ℚ) * 100 = 0 := by norm_num
    simp only [formatTwoDec, formatTwoDecChars, h]
    decide
  have hv : verdictOf 0 = "VERIFIED (Low Risk)" := by
    norm_num [verdictOf, MISINFO_THRESHOLD, MANIPULATION_THRESHOLD]
  simp only [check_fnc, imageScoreOf, htext, Option.isSome_none, hfin, hfmt, hv]
  decide

/-- Claim C5 (amended): the `app.py` variant of `check` returns a record whose
verdict is one of exactly three labels and whose three scores are each
rendered with exactly two decimal digits; the `falseNewsChecker.py` variant
instead returns a single string containing one two-decimal score and one of
the same three verdict labels. -/
theorem claim_C5_result_record (url content : String) (img : Option (ℤ × ℚ)) (r : ℚ) :
    ((check_app url img content r).verdict = "VERIFIED (Low Risk)" ∨
     (check_app url img content r).verdict = "CAUTION ADVISED (High Bias/Uncertainty) ⚠️" ∨
     (check_app url img content r).verdict = "HIGH MISINFORMATION RISK 🚨") ∧
    twoDecRendered (check_app url img content r).score = true ∧
    twoDecRendered (check_app url img content r).text_score = true ∧
    twoDecRendered (check_app url img content r).image_score = true ∧
    (∃ v s, (v = "VERIFIED (Low Risk)" ∨ v = "CAUTION ADVISED (High Bias/Uncertainty) ⚠️" ∨
        v = "HIGH MISINFORMATION RISK 🚨") ∧ twoDecRendered s = true ∧
      check_fnc url img content r =
        "Final Misinformation Score: " ++ s ++ " | VERDICT: " ++ v) := by
  refine ⟨?_, ?_, ?_, ?_, ?_⟩
  · simp only [check_app]
    exact verdictOf_cases _
  · simp only [check_app]
    exact twoDecRendered_format _
  · simp only [check_app]
    exact twoDecRendered_format _
  · simp only [check_app]
    exact twoDecRendered_format _
  · exact ⟨verdictOf (finalScore_fnc (analyzeTextForBias url content)
        (imageScoreOf img r) img.isSome),
      formatTwoDec (finalScore_fnc (analyzeTextForBias url content)
        (imageScoreOf img r) img.isSome),
      verdictOf_cases _, twoDecRendered_format _, rfl⟩

/-- Claim C10: keyword matching in `score_text` is case-insensitive (the text
is lowercased before counting) while the domain heuristics match the original
url case-sensitively: a url carrying only the uppercase variants "BLOGSPOT" /
".CO" of the domain markers (and none of the lowercase patterns) receives no
domain penalty — the score is just the normalized clamped keyword score — and
the keyword score itself only depends on the lowercased url, so an uppercase
keyword such as "SCAM" contributes its weight all the same. -/
theorem claim_C10_case_sensitivity (url url2 content : String)
    (_hup : containsSub "BLOGSPOT".data url.data = true ∨ endsWith ".CO".data url.data = true)
    (h1 : containsSub "blogspot".data url.data = false)
    (h2 : containsSub "wordpress".data url.data = false)
    (h3 : endsWith ".co".data url.data = false)
    (h4 : containsSub "hoax".data url.data = false)
    (h5 : containsSub "conspiracy".data url.data = false)
    (h6 : containsSub "rumor".data url.data = false)
    (hcase : url.data.map Char.toLower = url2.data.map Char.toLower) :
    analyzeTextForBias url content = min (keywordScore url content / (5/2)) 1 ∧
    keywordScore url content = keywordScore url2 content := by
  constructor
  · rw [analyzeTextForBias_eval url content false false
      (by rw [h1, h2, h3]; rfl) (by rw [h4, h5, h6]; rfl)]
    norm_num
  · simp only [keywordScore, List.map_append, hcase]

/-- Witness for C10: the all-uppercase url "HTTP://SCAM.BLOGSPOT.CO" gets no
domain penalty, and its keyword score agrees with the lowercase url's. -/
theorem claim_C10_witness :
    analyzeTextForBias "HTTP://SCAM.BLOGSPOT.CO" ""
      = min (keywordScore "HTTP://SCAM.BLOGSPOT.CO" "" / (5/2)) 1 ∧
    keywordScore "HTTP://SCAM.BLOGSPOT.CO" "" = keywordScore "http://scam.blogspot.co" "" :=
  claim_C10_case_sensitivity "HTTP://SCAM.BLOGSPOT.CO" "http://scam.blogspot.co" ""
    (Or.inl (by decide)) (by decide) (by decide) (by decide) (by decide) (by decide) (by decide)
    (by decide)

end Vera
